import Mathlib

/-!
Shallow embedding of the token-list core of the toKenz repository:
the filter/sort/cap pipeline (filteredTokens), the per-item height
estimator (estimateSize), the expansion-state operations
(toggleTokenExpansion and the expand-all/collapse-all button handler),
and the persisted-filter loader (getSavedFilters).

Modelling conventions: JS numbers that the code only ever adds,
subtracts, compares and multiplies by plus or minus one are embedded as
Int; JS strings as Lean String (character-level helpers below mirror
toLowerCase, includes, endsWith and replace of a first occurrence); the
JS Set of expanded addresses as a Finset String (the claims are about
membership only); Array.prototype.sort with a consistent comparator as
a stable sort (List.insertionSort over the relation compare result
less-or-equal zero, which is the unique result ECMAScript permits for a
consistent comparator).
-/

/-- Record of one scanned token, with exactly the fields that the
embedded functions read. riskLevel is kept as a raw string because the
source switches on it with a default case; the five gp...-section
fields are embedded as their JS truthiness (the source only branches on
them). -/
structure Token where
  tokenAddress : String
  tokenName : String
  tokenSymbol : String
  tokenAgeHours : Int
  gpHolderCount : Int
  hpLiquidityAmount : Int
  riskLevel : String
  hpIsHoneypot : Bool
  gpIsProxy : Bool
  gpIsMintable : Bool
  gpHasProxyCalls : Bool
  gpCannotBuy : Bool
  gpCannotSellAll : Bool
  gpTradingCooldown : Bool
  gpTransferPausable : Bool
  gpSlippageModifiable : Bool
  gpHiddenOwner : Bool
  gpTrustList : Bool
  gpOtherPotentialRisks : Bool
  gpHolders : Bool
  gpLpHolders : Bool
  gpDexInfo : Bool
  deriving DecidableEq

/-- FilterState value object, exactly the fields of the source type as
used by the list components. -/
structure FilterState where
  minHolders : Int
  minLiquidity : Int
  hideHoneypots : Bool
  showOnlyHoneypots : Bool
  hideDanger : Bool
  hideWarning : Bool
  showOnlySafe : Bool
  searchQuery : String
  sortBy : String
  sortDirection : String
  maxRecords : Int
  hideStagnantHolders : Bool
  hideStagnantLiquidity : Bool
  stagnantRecordCount : Int
  deriving DecidableEq

/-- Character-level model of JS String.prototype.toLowerCase (ASCII
range, which is what the token names, symbols and hex addresses use). -/
def jsToLowerCase (s : String) : String := ⟨s.data.map Char.toLower⟩

/-- hasSubstr pat hay decides whether pat occurs contiguously in hay;
model of hay.includes(pat). -/
def hasSubstr (pat : List Char) : List Char → Bool
  | [] => decide (pat = [])
  | c :: rest => decide (List.take pat.length (c :: rest) = pat) || hasSubstr pat rest

/-- Model of s.includes(q) on JS strings. -/
def jsIncludes (s q : String) : Bool := hasSubstr q.data s.data

/-- removeOnce pat l deletes the leftmost occurrence of pat from l;
model of l.replace(pat, empty string) for a plain string pattern. -/
def removeOnce (pat : List Char) : List Char → List Char
  | [] => []
  | c :: rest =>
    if List.take pat.length (c :: rest) = pat then List.drop pat.length (c :: rest)
    else c :: removeOnce pat rest

/-- The characters of the ascending-sort suffix in sort keys. -/
def ascSuffix : List Char := ['_', 'a', 's', 'c']

/-- Model of sortBy.endsWith the ascending suffix. -/
def endsWithAsc (sortBy : String) : Bool := List.isSuffixOf ascSuffix sortBy.data

/-- Direction picked by the sort comparator: 1 when the key carries the
ascending suffix, otherwise the descending default -1. -/
def sortDirectionOf (sortBy : String) : Int :=
  if endsWithAsc sortBy then 1 else -1

/-- Field name picked by the sort comparator: the key with the first
occurrence of the ascending suffix removed when the key ends with it,
otherwise the key itself. -/
def sortFieldOf (sortBy : String) : String :=
  if endsWithAsc sortBy then ⟨removeOnce ascSuffix sortBy.data⟩ else sortBy

/-- searchToken from the list components: case-insensitive substring
match of the query against name, symbol and address. -/
def searchToken (t : Token) (query : String) : Bool :=
  let q := jsToLowerCase query
  jsIncludes (jsToLowerCase t.tokenName) q ||
  jsIncludes (jsToLowerCase t.tokenSymbol) q ||
  jsIncludes (jsToLowerCase t.tokenAddress) q

/-- getRiskScore from the list components: safe 2, warning 1, danger 0,
anything else 0. -/
def getRiskScore (t : Token) : Int :=
  if t.riskLevel == "safe" then 2
  else if t.riskLevel == "warning" then 1
  else if t.riskLevel == "danger" then 0
  else 0

/-- The filter closure of filteredTokens in part_001 (the variant with
the min-holders and min-liquidity thresholds), as an early-return
chain; a non-empty searchQuery string is JS-truthy and its match result
is returned directly, an empty one falls through to true. -/
def tokenPassesFilter (f : FilterState) (t : Token) : Bool :=
  if f.hideHoneypots && t.hpIsHoneypot then false
  else if f.showOnlyHoneypots && !t.hpIsHoneypot then false
  else if f.hideDanger && t.riskLevel == "danger" then false
  else if f.hideWarning && t.riskLevel == "warning" then false
  else if f.showOnlySafe && t.riskLevel != "safe" then false
  else if decide (0 < f.minHolders) && decide (t.gpHolderCount < f.minHolders) then false
  else if decide (0 < f.minLiquidity) && decide (t.hpLiquidityAmount < f.minLiquidity) then false
  else if f.searchQuery ≠ "" then searchToken t f.searchQuery
  else true

/-- Sort comparator of filteredTokens in part_001 and part_002: note
the age branch subtracts a from b while the other numeric branches
subtract b from a. -/
def compareTokens (f : FilterState) (a b : Token) : Int :=
  let direction := sortDirectionOf f.sortBy
  let field := sortFieldOf f.sortBy
  if field == "age" then (b.tokenAgeHours - a.tokenAgeHours) * direction
  else if field == "holders" then (a.gpHolderCount - b.gpHolderCount) * direction
  else if field == "liquidity" then (a.hpLiquidityAmount - b.hpLiquidityAmount) * direction
  else if field == "safetyScore" then (getRiskScore a - getRiskScore b) * direction
  else 0

/-- Sort comparator of filteredTokens in part_000: every branch,
including age, subtracts b from a. -/
def compareTokensLegacy (f : FilterState) (a b : Token) : Int :=
  let direction := sortDirectionOf f.sortBy
  let field := sortFieldOf f.sortBy
  if field == "age" then (a.tokenAgeHours - b.tokenAgeHours) * direction
  else if field == "holders" then (a.gpHolderCount - b.gpHolderCount) * direction
  else if field == "liquidity" then (a.hpLiquidityAmount - b.hpLiquidityAmount) * direction
  else if field == "safetyScore" then (getRiskScore a - getRiskScore b) * direction
  else 0

/-- The result.sort step of part_001 and part_002, modelled as the
stable sort determined by the comparator. -/
def sortTokens (f : FilterState) (l : List Token) : List Token :=
  List.insertionSort (fun a b => compareTokens f a b ≤ 0) l

/-- The result.sort step of part_000. -/
def sortTokensLegacy (f : FilterState) (l : List Token) : List Token :=
  List.insertionSort (fun a b => compareTokensLegacy f a b ≤ 0) l

/-- Model of arr.slice(0, e): a negative end index counts back from the
length (clamped at zero), a non-negative one truncates to at most e
elements. -/
def jsSliceTo (e : Int) (l : List α) : List α :=
  if e < 0 then List.take (l.length - e.natAbs) l
  else List.take e.toNat l

/-- The filteredTokens memo of part_001: filter, then sort, then
slice(0, maxRecords). -/
def filteredTokens (f : FilterState) (tokens : List Token) : List Token :=
  jsSliceTo f.maxRecords (sortTokens f (List.filter (tokenPassesFilter f) tokens))

/-- Warning count of estimateSize in part_001: the number of true flags
among the nine boolean risk flags it inspects. -/
def warningCount (t : Token) : Int :=
  (if t.gpIsProxy then 1 else 0) +
  (if t.gpIsMintable then 1 else 0) +
  (if t.gpHasProxyCalls then 1 else 0) +
  (if t.gpCannotBuy then 1 else 0) +
  (if t.gpCannotSellAll then 1 else 0) +
  (if t.gpTradingCooldown then 1 else 0) +
  (if t.gpTransferPausable then 1 else 0) +
  (if t.gpSlippageModifiable then 1 else 0) +
  (if t.gpHiddenOwner then 1 else 0)

/-- estimateSize from part_001, with its sequence of height increments
written as one sum in source order: missing index 60; compact row 84;
expanded row top sections, conditional warnings block, core sections,
five conditional 40-point sections, charts, history table and bottom
sections. -/
def estimateSize (toks : List Token) (expandedTokens : Finset String) (index : Nat) : Int :=
  match toks.get? index with
  | none => 60
  | some token =>
    if token.tokenAddress ∉ expandedTokens then 84
    else
      40 + 60 + 60 +
      (if 0 < warningCount token then 80 + warningCount token * 24 else 0) +
      300 + 400 + 200 + 300 + 200 +
      (if token.gpTrustList then 40 else 0) +
      (if token.gpOtherPotentialRisks then 40 else 0) +
      (if token.gpHolders then 40 else 0) +
      (if token.gpLpHolders then 40 else 0) +
      (if token.gpDexInfo then 40 else 0) +
      40 + 40 + 200 + 40 + 200 + 40 +
      40 + 200 + 40 +
      60 + 40

/-- toggleTokenExpansion from part_001 and part_002: delete the address
when present, add it when absent. -/
def toggleTokenExpansion (prev : Finset String) (tokenAddress : String) : Finset String :=
  if tokenAddress ∈ prev then prev.erase tokenAddress else insert tokenAddress prev

/-- The onClick handler of the expand-all/collapse-all button in
part_001 and part_002: if any currently filtered token is expanded the
whole set is replaced by the empty set, otherwise by the set of
addresses of the currently filtered tokens. -/
def expandCollapseAllClick (currentTokens : List Token) (prev : Finset String) : Finset String :=
  if currentTokens.any (fun t => decide (t.tokenAddress ∈ prev)) then (∅ : Finset String)
  else (currentTokens.map fun t => t.tokenAddress).toFinset

/-- The FilterState defaults returned by getSavedFilters when nothing
usable is persisted. -/
def defaultFilterState : FilterState where
  minHolders := 0
  minLiquidity := 0
  hideHoneypots := false
  showOnlyHoneypots := false
  hideDanger := false
  hideWarning := false
  showOnlySafe := false
  searchQuery := ""
  sortBy := "age"
  sortDirection := "desc"
  maxRecords := 50
  hideStagnantHolders := false
  hideStagnantLiquidity := false
  stagnantRecordCount := 10

/-- Untyped value produced by JSON.parse in getSavedFilters; the source
casts it to FilterState without validating, so a parse can also yield a
number, a string or null, and the function returns whatever it got. -/
inductive JsValue where
  | ofFilters (fs : FilterState)
  | ofNumber (n : Int)
  | ofString (s : String)
  | jsNull
  deriving DecidableEq

/-- Outcome of the localStorage.getItem plus JSON.parse step in
getSavedFilters: nothing stored, a parse exception, or a successfully
parsed value. -/
inductive LoadOutcome where
  | noSaved
  | parseFailed
  | parsed (value : JsValue)
  deriving DecidableEq

/-- getSavedFilters from part_001: defaults when nothing is stored or
JSON.parse throws; a successfully parsed value is returned as is. -/
def getSavedFilters : LoadOutcome → JsValue
  | .noSaved => .ofFilters defaultFilterState
  | .parseFailed => .ofFilters defaultFilterState
  | .parsed v => v

/-- Conjunction of the non-search predicates of the part_001 filter,
written as the spec describes the other filters; used to state how the
search clause composes with them. -/
def passesNonSearchFilters (f : FilterState) (t : Token) : Bool :=
  !(f.hideHoneypots && t.hpIsHoneypot) &&
  !(f.showOnlyHoneypots && !t.hpIsHoneypot) &&
  !(f.hideDanger && t.riskLevel == "danger") &&
  !(f.hideWarning && t.riskLevel == "warning") &&
  !(f.showOnlySafe && t.riskLevel != "safe") &&
  !(decide (0 < f.minHolders) && decide (t.gpHolderCount < f.minHolders)) &&
  !(decide (0 < f.minLiquidity) && decide (t.hpLiquidityAmount < f.minLiquidity))

/-- Count of the five optional sections of estimateSize that are
present on a token. -/
def optionalSectionCount (t : Token) : Int :=
  (if t.gpTrustList then 1 else 0) +
  (if t.gpOtherPotentialRisks then 1 else 0) +
  (if t.gpHolders then 1 else 0) +
  (if t.gpLpHolders then 1 else 0) +
  (if t.gpDexInfo then 1 else 0)

/-- A safe, non-honeypot token with every flag clear, used as the base
of the concrete instances below. -/
def baseToken : Token where
  tokenAddress := "0xbase"
  tokenName := "Base"
  tokenSymbol := "BASE"
  tokenAgeHours := 0
  gpHolderCount := 0
  hpLiquidityAmount := 0
  riskLevel := "safe"
  hpIsHoneypot := false
  gpIsProxy := false
  gpIsMintable := false
  gpHasProxyCalls := false
  gpCannotBuy := false
  gpCannotSellAll := false
  gpTradingCooldown := false
  gpTransferPausable := false
  gpSlippageModifiable := false
  gpHiddenOwner := false
  gpTrustList := false
  gpOtherPotentialRisks := false
  gpHolders := false
  gpLpHolders := false
  gpDexInfo := false

/-- Token of age 1.0 hours. -/
def tAge1 : Token := { baseToken with tokenAddress := "0xa1", tokenName := "One", tokenAgeHours := 1 }

/-- Token of age 5.0 hours. -/
def tAge5 : Token := { baseToken with tokenAddress := "0xa5", tokenName := "Five", tokenAgeHours := 5 }

/-- Token of age 2.0 hours. -/
def tAge2 : Token := { baseToken with tokenAddress := "0xa2", tokenName := "Two", tokenAgeHours := 2 }

/-- A honeypot token named Alpha. -/
def tHoneypotAlpha : Token :=
  { baseToken with tokenAddress := "0xhp", tokenName := "Alpha", tokenSymbol := "ALP",
                   riskLevel := "danger", hpIsHoneypot := true }

/-- A safe token named Alpha. -/
def tSafeAlpha : Token :=
  { baseToken with tokenAddress := "0xsa", tokenName := "AlphaSafe", tokenSymbol := "ALS" }

/-- Criteria hiding honeypots while searching for alpha. -/
def searchHideFilters : FilterState :=
  { defaultFilterState with hideHoneypots := true, searchQuery := "alpha" }

/-- Criteria searching for alpha with every other filter off. -/
def searchOnlyFilters : FilterState :=
  { defaultFilterState with searchQuery := "alpha" }

/-- Criteria sorting by the plain age key (the defaults). -/
def ageDescFilters : FilterState := defaultFilterState

/-- Criteria sorting by the age key with the ascending suffix. -/
def ageAscFilters : FilterState := { defaultFilterState with sortBy := "age_asc" }

/-- Criteria with a result cap of two. -/
def capTwoFilters : FilterState := { defaultFilterState with maxRecords := 2 }

/-- Criteria with a result cap of zero. -/
def zeroCapFilters : FilterState := { defaultFilterState with maxRecords := 0 }

/-- Criteria with a result cap of minus one. -/
def negCapFilters : FilterState := { defaultFilterState with maxRecords := -1 }

/-- Criteria whose sort key names no recognized field. -/
def volumeSortFilters : FilterState := { defaultFilterState with sortBy := "volume" }

/-- An expansion set holding only an address that no current token has. -/
def prevFarExpanded : Finset String := {"0xgone"}

theorem tokenPassesFilter_eq_conj (f : FilterState) (t : Token) (hq : f.searchQuery ≠ "") :
    tokenPassesFilter f t = (passesNonSearchFilters f t && searchToken t f.searchQuery) := by
  unfold tokenPassesFilter passesNonSearchFilters
  split_ifs with h1 h2 h3 h4 h5 h6 h7
  · simp [h1]
  · simp [h2]
  · simp [h3]
  · simp [h4]
  · simp [h5]
  · simp [h6]
  · simp [h7]
  · simp only [Bool.not_eq_true] at h1 h2 h3 h4 h5 h6 h7
    simp [h1, h2, h3, h4, h5, h6, h7]

/-- Claim C1, counterexample: a honeypot token named Alpha matches the
non-empty query alpha, yet with hide-honeypots enabled it does not
appear in the filter result, so a non-empty search does not decide
inclusion independent of the other filters. -/
theorem searchQuery_override_counterexample :
    ¬ ((tHoneypotAlpha ∈ List.filter (tokenPassesFilter searchHideFilters) [tHoneypotAlpha]) ↔
       searchToken tHoneypotAlpha searchHideFilters.searchQuery = true) := by decide

/-- Claim C1 (amended): with a non-empty search query, a record appears
in the filter result of the part_001 pipeline exactly when it passes
every other enabled filter (hide-honeypots, show-only-honeypots,
hide-danger, hide-warning, show-only-safe and the two thresholds) and
its name, symbol or identifier contains the query case-insensitively:
the search clause replaces only the final default-include of the chain,
not the earlier early-return rejections. -/
theorem searchQuery_conjoins_other_filters (f : FilterState) (t : Token) (records : List Token)
    (hq : f.searchQuery ≠ "") :
    t ∈ List.filter (tokenPassesFilter f) records ↔
      t ∈ records ∧ passesNonSearchFilters f t = true ∧ searchToken t f.searchQuery = true := by
  rw [List.mem_filter, tokenPassesFilter_eq_conj f t hq, Bool.and_eq_true]

/-- Witness for C1: a safe token named AlphaSafe, searched with the
query alpha and no other filter active, appears in the filter result. -/
theorem searchQuery_conjoins_other_filters_witness :
    tSafeAlpha ∈ List.filter (tokenPassesFilter searchOnlyFilters) [tSafeAlpha] :=
  (searchQuery_conjoins_other_filters searchOnlyFilters tSafeAlpha [tSafeAlpha] (by decide)).2
    ⟨by decide, by decide, by decide⟩

/-- Claim C2, counterexample: in the part_001/part_002 pipeline,
sorting ages [1, 5, 2] with the plain age key produces [1, 2, 5], not
the claimed [5, 2, 1]. -/
theorem sortTokens_age_default_counterexample :
    sortTokens ageDescFilters [tAge1, tAge5, tAge2] = [tAge1, tAge2, tAge5] ∧
    sortTokens ageDescFilters [tAge1, tAge5, tAge2] ≠ [tAge5, tAge2, tAge1] := by decide

/-- Claim C2 (amended): the part_001/part_002 age comparator subtracts
a from b before applying the direction flag, so the plain age key
(direction -1) orders ages ascending [1, 2, 5] (newest first) and the
age_asc key orders them [5, 2, 1]; the part_000 variant subtracts b
from a, yielding exactly the originally claimed orders [5, 2, 1] and
[1, 2, 5]. -/
theorem sortTokens_age_scenario_by_variant :
    sortTokens ageDescFilters [tAge1, tAge5, tAge2] = [tAge1, tAge2, tAge5] ∧
    sortTokens ageAscFilters [tAge1, tAge5, tAge2] = [tAge5, tAge2, tAge1] ∧
    sortTokensLegacy ageDescFilters [tAge1, tAge5, tAge2] = [tAge5, tAge2, tAge1] ∧
    sortTokensLegacy ageAscFilters [tAge1, tAge5, tAge2] = [tAge1, tAge2, tAge5] := by decide

/-- Claim C3: with a positive cap smaller than the filtered sequence,
the pipeline output is the first cap elements of the fully sorted
filtered sequence, and therefore differs from the truncate-first
result whenever the two lists differ. -/
theorem filteredTokens_cap_after_sort (f : FilterState) (tokens : List Token)
    (hcap : 0 < f.maxRecords)
    (hbig : f.maxRecords.toNat < (List.filter (tokenPassesFilter f) tokens).length) :
    filteredTokens f tokens
      = List.take f.maxRecords.toNat (sortTokens f (List.filter (tokenPassesFilter f) tokens)) ∧
    (sortTokens f (List.take f.maxRecords.toNat (List.filter (tokenPassesFilter f) tokens))
        ≠ List.take f.maxRecords.toNat (sortTokens f (List.filter (tokenPassesFilter f) tokens)) →
      filteredTokens f tokens
        ≠ sortTokens f (List.take f.maxRecords.toNat (List.filter (tokenPassesFilter f) tokens))) := by
  have h1 : filteredTokens f tokens
      = List.take f.maxRecords.toNat (sortTokens f (List.filter (tokenPassesFilter f) tokens)) := by
    unfold filteredTokens jsSliceTo
    rw [if_neg (by omega)]
  exact ⟨h1, fun hne => by rw [h1]; exact fun hcontra => hne hcontra.symm⟩

/-- Witness for C3: three tokens of ages [1, 5, 2] with cap 2. -/
theorem filteredTokens_cap_after_sort_witness :
    filteredTokens capTwoFilters [tAge1, tAge5, tAge2]
      = List.take capTwoFilters.maxRecords.toNat
          (sortTokens capTwoFilters (List.filter (tokenPassesFilter capTwoFilters) [tAge1, tAge5, tAge2])) :=
  (filteredTokens_cap_after_sort capTwoFilters [tAge1, tAge5, tAge2] (by decide) (by decide)).1

/-- Claim C4, counterexample: with the previously expanded address
0xgone filtered out and no filtered token expanded, the expand-all
branch drops 0xgone from the expansion set instead of leaving its
membership unchanged. -/
theorem expandAll_frame_counterexample :
    (∀ t ∈ [tAge1], t.tokenAddress ∉ prevFarExpanded) ∧
    "0xgone" ∈ prevFarExpanded ∧
    "0xgone" ∉ expandCollapseAllClick [tAge1] prevFarExpanded := by decide

/-- Claim C4 (amended): when no identifier of the currently filtered
sequence is expanded, the expand-all branch makes the expansion set
exactly the identifiers of the currently filtered sequence: every
filtered identifier becomes expanded, and every other identifier,
including previously-expanded-but-now-filtered-out ones, is absent
afterwards rather than preserved. -/
theorem expandAll_sets_exactly_filtered_ids (toks : List Token) (prev : Finset String)
    (h : ∀ t ∈ toks, t.tokenAddress ∉ prev) :
    (∀ t ∈ toks, t.tokenAddress ∈ expandCollapseAllClick toks prev) ∧
    (∀ a : String, a ∉ toks.map (fun t => t.tokenAddress) → a ∉ expandCollapseAllClick toks prev) := by
  have hany : (toks.any fun t => decide (t.tokenAddress ∈ prev)) = false := by
    rw [List.any_eq_false]
    intro t ht
    simpa using h t ht
  unfold expandCollapseAllClick
  rw [if_neg (by simp [hany])]
  constructor
  · intro t ht
    rw [List.mem_toFinset]
    exact List.mem_map_of_mem _ ht
  · intro a ha
    rw [List.mem_toFinset]
    exact ha

/-- Witness for C4: expand-all over one filtered token expands its
address and leaves an unrelated address out of the set. -/
theorem expandAll_sets_exactly_filtered_ids_witness :
    tAge1.tokenAddress ∈ expandCollapseAllClick [tAge1] prevFarExpanded ∧
    "0xother" ∉ expandCollapseAllClick [tAge1] prevFarExpanded :=
  ⟨(expandAll_sets_exactly_filtered_ids [tAge1] prevFarExpanded (by decide)).1 tAge1 (by decide),
   (expandAll_sets_exactly_filtered_ids [tAge1] prevFarExpanded (by decide)).2 "0xother" (by decide)⟩

/-- Claim C5: the expand-all/collapse-all toggle inspects whether any
record of the currently filtered sequence is expanded; if at least one
is, the whole expansion set becomes empty, and if none is, it becomes
exactly the identifiers of the currently filtered sequence. -/
theorem expandCollapseAll_branch_behavior (toks : List Token) (prev : Finset String) :
    ((∃ t ∈ toks, t.tokenAddress ∈ prev) → expandCollapseAllClick toks prev = ∅) ∧
    ((∀ t ∈ toks, t.tokenAddress ∉ prev) →
      expandCollapseAllClick toks prev = (toks.map fun t => t.tokenAddress).toFinset) := by
  constructor
  · intro h
    unfold expandCollapseAllClick
    rw [if_pos]
    simpa [List.any_eq_true] using h
  · intro h
    have hany : (toks.any fun t => decide (t.tokenAddress ∈ prev)) = false := by
      rw [List.any_eq_false]
      intro t ht
      simpa using h t ht
    unfold expandCollapseAllClick
    rw [if_neg (by simp [hany])]

/-- Witness for C5: both branches at concrete inputs. -/
theorem expandCollapseAll_branch_behavior_witness :
    expandCollapseAllClick [tAge1] {"0xa1"} = ∅ ∧
    expandCollapseAllClick [tAge1] prevFarExpanded = ([tAge1].map fun t => t.tokenAddress).toFinset :=
  ⟨(expandCollapseAll_branch_behavior [tAge1] {"0xa1"}).1 ⟨tAge1, by decide, by decide⟩,
   (expandCollapseAll_branch_behavior [tAge1] prevFarExpanded).2 (by decide)⟩

/-- Claim C6: for a record present at the given index, the estimator
returns the fixed constant 84 when the record is not expanded; when it
is expanded it returns the fixed section total 2500 plus 40 for each
present optional field plus, exactly when at least one of the nine
boolean risk flags is true, a warnings contribution of the header cost
80 plus 24 per true flag. -/
theorem estimateSize_height_formula (toks : List Token) (expanded : Finset String)
    (i : Nat) (t : Token) (ht : toks.get? i = some t) :
    (t.tokenAddress ∉ expanded → estimateSize toks expanded i = 84) ∧
    (t.tokenAddress ∈ expanded →
      estimateSize toks expanded i
        = 2500 + 40 * optionalSectionCount t
          + (if 0 < warningCount t then 80 + 24 * warningCount t else 0)) ∧
    (0 < warningCount t ↔
      (t.gpIsProxy = true ∨ t.gpIsMintable = true ∨ t.gpHasProxyCalls = true ∨
       t.gpCannotBuy = true ∨ t.gpCannotSellAll = true ∨ t.gpTradingCooldown = true ∨
       t.gpTransferPausable = true ∨ t.gpSlippageModifiable = true ∨ t.gpHiddenOwner = true)) := by
  refine ⟨?_, ?_, ?_⟩
  · intro h
    simp only [estimateSize, ht]
    rw [if_pos h]
  · intro h
    simp only [estimateSize, ht, optionalSectionCount]
    rw [if_neg (not_not_intro h)]
    split_ifs <;> ring
  · obtain ⟨a1, a2, a3, a4, a5, a6, a7, a8, p1, p2, p3, p4, p5, p6, p7, p8, p9, b1, b2, b3, b4, b5⟩ := t
    cases p1 <;> cases p2 <;> cases p3 <;> cases p4 <;> cases p5 <;>
      cases p6 <;> cases p7 <;> cases p8 <;> cases p9 <;> simp [warningCount]

/-- Witness for C6: a compact token and an expanded honeypot token. -/
theorem estimateSize_height_formula_witness :
    estimateSize [tAge1] (∅ : Finset String) 0 = 84 ∧
    estimateSize [tHoneypotAlpha] {"0xhp"} 0
      = 2500 + 40 * optionalSectionCount tHoneypotAlpha
        + (if 0 < warningCount tHoneypotAlpha then 80 + 24 * warningCount tHoneypotAlpha else 0) :=
  ⟨(estimateSize_height_formula [tAge1] ∅ 0 tAge1 rfl).1 (by decide),
   (estimateSize_height_formula [tHoneypotAlpha] {"0xhp"} 0 tHoneypotAlpha rfl).2.1 (by decide)⟩

/-- Claim C7, counterexample: with a cap of zero the pipeline returns
the empty list even though the sorted filtered sequence is non-empty,
so a non-positive cap does not yield the full sequence. -/
theorem filteredTokens_zero_cap_counterexample :
    filteredTokens zeroCapFilters [tAge1] = [] ∧
    sortTokens zeroCapFilters (List.filter (tokenPassesFilter zeroCapFilters) [tAge1]) = [tAge1] := by
  decide

/-- Claim C7 (amended): slice(0, maxRecords) semantics apply: a cap of
zero yields the empty result, and a negative cap of -k yields the
sorted filtered sequence with its last k elements dropped, not the full
sequence. -/
theorem filteredTokens_nonpositive_cap (f : FilterState) (tokens : List Token) :
    (f.maxRecords = 0 → filteredTokens f tokens = []) ∧
    (f.maxRecords < 0 →
      filteredTokens f tokens
        = List.take ((sortTokens f (List.filter (tokenPassesFilter f) tokens)).length - f.maxRecords.natAbs)
            (sortTokens f (List.filter (tokenPassesFilter f) tokens))) := by
  constructor
  · intro h
    unfold filteredTokens jsSliceTo
    rw [h]
    simp
  · intro h
    unfold filteredTokens jsSliceTo
    rw [if_pos h]

/-- Witness for C7: cap zero on one token and cap minus one on two
tokens. -/
theorem filteredTokens_nonpositive_cap_witness :
    filteredTokens zeroCapFilters [tAge1] = [] ∧
    filteredTokens negCapFilters [tAge1, tAge5]
      = List.take
          ((sortTokens negCapFilters (List.filter (tokenPassesFilter negCapFilters) [tAge1, tAge5])).length
            - negCapFilters.maxRecords.natAbs)
          (sortTokens negCapFilters (List.filter (tokenPassesFilter negCapFilters) [tAge1, tAge5])) :=
  ⟨(filteredTokens_nonpositive_cap zeroCapFilters [tAge1]).1 rfl,
   (filteredTokens_nonpositive_cap negCapFilters [tAge1, tAge5]).2 (by decide)⟩

theorem compareTokens_unknown_field (f : FilterState) (a b : Token)
    (h1 : sortFieldOf f.sortBy ≠ "age") (h2 : sortFieldOf f.sortBy ≠ "holders")
    (h3 : sortFieldOf f.sortBy ≠ "liquidity") (h4 : sortFieldOf f.sortBy ≠ "safetyScore") :
    compareTokens f a b = 0 := by
  unfold compareTokens
  simp [h1, h2, h3, h4]

/-- Claim C8: when the sort key resolves to a field that is none of
age, holders, liquidity or safetyScore, the comparator returns zero on
every pair, the sort leaves any list in its prior order, and the
pipeline reduces to filter plus cap. -/
theorem filteredTokens_unknown_sort_field (f : FilterState) (tokens : List Token)
    (h1 : sortFieldOf f.sortBy ≠ "age") (h2 : sortFieldOf f.sortBy ≠ "holders")
    (h3 : sortFieldOf f.sortBy ≠ "liquidity") (h4 : sortFieldOf f.sortBy ≠ "safetyScore") :
    (∀ l : List Token, sortTokens f l = l) ∧
    filteredTokens f tokens = jsSliceTo f.maxRecords (List.filter (tokenPassesFilter f) tokens) := by
  have hsort : ∀ l : List Token, sortTokens f l = l := by
    intro l
    unfold sortTokens
    apply List.Sorted.insertionSort_eq
    apply List.pairwise_of_forall
    intro x y
    rw [compareTokens_unknown_field f x y h1 h2 h3 h4]
  exact ⟨hsort, by unfold filteredTokens; rw [hsort]⟩

/-- Witness for C8: the unrecognized key volume leaves a two-token list
unchanged. -/
theorem filteredTokens_unknown_sort_field_witness :
    sortTokens volumeSortFilters [tAge5, tAge1] = [tAge5, tAge1] :=
  (filteredTokens_unknown_sort_field volumeSortFilters [tAge5, tAge1]
    (by decide) (by decide) (by decide) (by decide)).1 [tAge5, tAge1]

/-- Claim C9, counterexample: a payload that parses successfully to the
number 123 is returned as the loaded value instead of being replaced by
the documented defaults, so a malformed-but-parsable payload does not
fall back to the defaults. -/
theorem getSavedFilters_malformed_counterexample :
    getSavedFilters (LoadOutcome.parsed (JsValue.ofNumber 123)) = JsValue.ofNumber 123 ∧
    JsValue.ofNumber 123 ≠ JsValue.ofFilters defaultFilterState := by decide

/-- Claim C9 (amended): only a missing payload or a JSON.parse
exception falls back to the documented defaults (minimum-holders 0,
minimum-liquidity 0, every boolean toggle false, empty search, sort key
age with descending direction, cap 50); a payload that parses
successfully is returned as-is without validation. -/
theorem getSavedFilters_fallback_behavior :
    getSavedFilters LoadOutcome.noSaved = JsValue.ofFilters defaultFilterState ∧
    getSavedFilters LoadOutcome.parseFailed = JsValue.ofFilters defaultFilterState ∧
    (∀ v : JsValue, getSavedFilters (LoadOutcome.parsed v) = v) ∧
    defaultFilterState.minHolders = 0 ∧ defaultFilterState.minLiquidity = 0 ∧
    defaultFilterState.hideHoneypots = false ∧ defaultFilterState.showOnlyHoneypots = false ∧
    defaultFilterState.hideDanger = false ∧ defaultFilterState.hideWarning = false ∧
    defaultFilterState.showOnlySafe = false ∧ defaultFilterState.hideStagnantHolders = false ∧
    defaultFilterState.hideStagnantLiquidity = false ∧ defaultFilterState.searchQuery = "" ∧
    defaultFilterState.sortBy = "age" ∧ defaultFilterState.sortDirection = "desc" ∧
    defaultFilterState.maxRecords = 50 :=
  ⟨rfl, rfl, fun _ => rfl, rfl, rfl, rfl, rfl, rfl, rfl, rfl, rfl, rfl, rfl, rfl, rfl, rfl⟩

/-- Claim C10: toggling the same identifier twice returns the expansion
set to its original value, a single toggle leaves the membership of
every other identifier unchanged, and the toggled identifier is a
member afterwards exactly when it was not before; the operation takes
no dataset and so validates nothing against it. -/
theorem toggleTokenExpansion_involution_frame (prev : Finset String) (addr other : String) :
    toggleTokenExpansion (toggleTokenExpansion prev addr) addr = prev ∧
    (other ≠ addr → (other ∈ toggleTokenExpansion prev addr ↔ other ∈ prev)) ∧
    (addr ∈ toggleTokenExpansion prev addr ↔ addr ∉ prev) := by
  by_cases h : addr ∈ prev
  · have hstep : toggleTokenExpansion prev addr = prev.erase addr := by
      unfold toggleTokenExpansion
      rw [if_pos h]
    have h2 : addr ∉ prev.erase addr := Finset.not_mem_erase addr prev
    refine ⟨?_, ?_, ?_⟩
    · rw [hstep]
      unfold toggleTokenExpansion
      rw [if_neg h2]
      exact Finset.insert_erase h
    · intro hne
      rw [hstep, Finset.mem_erase]
      simp [hne]
    · rw [hstep]
      simp [h2, h]
  · have hstep : toggleTokenExpansion prev addr = insert addr prev := by
      unfold toggleTokenExpansion
      rw [if_neg h]
    have h2 : addr ∈ insert addr prev := Finset.mem_insert_self addr prev
    refine ⟨?_, ?_, ?_⟩
    · rw [hstep]
      unfold toggleTokenExpansion
      rw [if_pos h2]
      exact Finset.erase_insert h
    · intro hne
      rw [hstep, Finset.mem_insert]
      simp [hne]
    · rw [hstep]
      simp [h2, h]

/-- Witness for C10: toggling 0xa1 twice on the singleton set 0xgone. -/
theorem toggleTokenExpansion_involution_frame_witness :
    toggleTokenExpansion (toggleTokenExpansion {"0xgone"} "0xa1") "0xa1" = {"0xgone"} ∧
    ("0xgone" ∈ toggleTokenExpansion {"0xgone"} "0xa1" ↔ "0xgone" ∈ ({"0xgone"} : Finset String)) ∧
    ("0xa1" ∈ toggleTokenExpansion {"0xgone"} "0xa1" ↔ "0xa1" ∉ ({"0xgone"} : Finset String)) :=
  ⟨(toggleTokenExpansion_involution_frame {"0xgone"} "0xa1" "0xgone").1,
   (toggleTokenExpansion_involution_frame {"0xgone"} "0xa1" "0xgone").2.1 (by decide),
   (toggleTokenExpansion_involution_frame {"0xgone"} "0xa1" "0xgone").2.2⟩
